import Mathlib

/-!
Verification of the sale-transaction and payment-settlement engine of a
multi-tenant point-of-sale backend.

The definitions below are a shallow embedding of the Python source:

* `create_sale` embeds `app/services/sales.py: create_sale` (the synchronous
  sale aggregate builder): invoice pre-check, tenant-scoped product fetch with
  row locks, per-product quantity aggregation, stock check-and-decrement,
  single commit. Database transactions are modelled as functions from the
  committed state to the committed state; an exception raised before
  `session.commit()` (or after `session.rollback()`) leaves the committed
  state unchanged, which the embedding expresses by returning the input
  state on every error path.
* `SalesService_create_sale_with_items`, `get_next_invoice_number`,
  `SalesService_get_sale` embed the corresponding methods of
  `app/services/sales_service.py` over the commit-per-call CRUD layer of
  `app/crud/base.py` (each `crud.create` commits immediately). The CRUD
  layer is `async`, and the repository mixes it with synchronous code; the
  embedding follows the actual runtime semantics of that mix:
  `get_next_invoice_number` is `async` yet `await`s the synchronous
  `crud_sale.get_by_invoice_no`, which raises on the first loop iteration
  under every session wiring, so the allocator never returns an invoice
  number and `create_sale_with_items` fails before persisting anything.
* `create_order_for_sale` and `verify_and_update_payment` embed the
  synchronous service `app/services/razorpay.py`. Its reads go through
  synchronous CRUD methods and execute, but `crud_razorpay_payment.create`
  and `.update` are `async` methods invoked WITHOUT `await`: the coroutines
  never run, so neither call persists or mutates any row — only the eagerly
  evaluated argument expressions take effect (notably the pydantic
  validation of `RazorpayOrderCreate`, whose `amount_paise` field carries a
  `gt=0` constraint). Calls into the external Razorpay SDK (client
  construction, `order.create`, `verify_payment_signature`,
  `payment.fetch`) and the wall clock are inputs of the embedding: their
  outcomes are passed as explicit parameters.

UUIDs are modelled as `Nat`, `Numeric(10,2)` money columns as `ℚ`,
`Integer` stock as `ℤ`, timestamps as `Nat`.
-/

/-- Product row (`app/models/product.py`): primary key `id`, `tenant_id`,
`stock` (`Integer`). Fields not consulted by the engine are omitted. -/
structure Product where
  pid : Nat
  tenant : Nat
  stock : Int
deriving DecidableEq, Repr

/-- Cart line (`app/schemas/sale_item.py: SaleItemCreate`):
`product_id`, `quantity : int`, `unit_price : Decimal`. -/
structure SaleItemCreate where
  product_id : Nat
  quantity : Int
  unit_price : ℚ
deriving DecidableEq, Repr

/-- Persisted sale row (`app/models/sale.py`), restricted to the fields the
engine reads or writes: primary key, `tenant_id`, `invoice_no`,
`payment_status` (column default `"pending"`), `total`. -/
structure SaleRow where
  sid : Nat
  tenant : Nat
  invoice_no : String
  payment_status : String
  total : ℚ
deriving DecidableEq, Repr

/-- Persisted sale item row (`app/models/sale_item.py`). -/
structure SaleItemRow where
  tenant : Nat
  sale_id : Nat
  product_id : Nat
  quantity : Int
  unit_price : ℚ
deriving DecidableEq, Repr

/-- Sale creation payload (`app/schemas/sale.py: SaleCreate`), restricted to
the fields `create_sale` consults. -/
structure SaleCreate where
  invoice_no : String
  items : List SaleItemCreate
  total : ℚ
deriving DecidableEq, Repr

/-- The committed database state seen by the synchronous sales service. -/
structure DB where
  products : List Product
  sales : List SaleRow
  saleItems : List SaleItemRow
deriving DecidableEq, Repr

/-- Typed errors of `app/services/sales.py` (`SaleError` hierarchy).
`emptyCart` stands for the bare `SaleError("Sale must include at least one
item")`. -/
inductive SaleErr where
  | emptyCart : SaleErr
  | productNotFound (product_id : Nat) : SaleErr
  | insufficientStock (product_id : Nat) (available requested : Int) : SaleErr
deriving DecidableEq, Repr

/-- Lookup in the `products = {product.id: product}` dict built by
`create_sale`: first row with the given primary key. -/
def lookupProduct (ps : List Product) (pid : Nat) : Option Product :=
  ps.find? (fun p => p.pid == pid)

/-- The tenant-scoped, row-locked fetch
`select(Product).where(Product.id.in_(product_ids))
.where(Product.tenant_id == tenant_id).with_for_update()`. -/
def fetchProducts (db : DB) (tenant : Nat) (pids : List Nat) : List Product :=
  db.products.filter (fun p => pids.contains p.pid && (p.tenant == tenant))

/-- One step of the `defaultdict(int)` accumulation
`requested_quantity[item.product_id] += item.quantity`: add `q` to the entry
for `pid`, inserting it at the end on first occurrence. -/
def addQty : List (Nat × Int) → Nat → Int → List (Nat × Int)
  | [], pid, q => [(pid, q)]
  | (p, x) :: rest, pid, q =>
    if p = pid then (p, x + q) :: rest else (p, x) :: addQty rest pid q

/-- The `requested_quantity` accumulation: aggregate requested quantity per product over the
cart lines, in first-occurrence order. -/
def aggregateQuantities (items : List SaleItemCreate) : List (Nat × Int) :=
  items.foldl (fun acc it => addQty acc it.product_id it.quantity) []

/-- The spec-side quantity for a product: the sum of `quantity` over all cart
lines referencing it. -/
def sumQty (items : List SaleItemCreate) (pid : Nat) : Int :=
  ((items.filter (fun it => it.product_id == pid)).map (fun it => it.quantity)).sum

/-- Lookup of the aggregated quantity for a product in the
`requested_quantity` association list. -/
def aggLookup (l : List (Nat × Int)) (pid : Nat) : Option Int :=
  (l.find? (fun e => e.1 == pid)).map Prod.snd

/-- In-session mutation `product.stock -= qty` on the locked row set. -/
def decrementStock (ps : List Product) (pid : Nat) (q : Int) : List Product :=
  ps.map (fun p => if p.pid = pid then { p with stock := p.stock - q } else p)

/-- The check-and-deduct loop of `create_sale` (lines 172-180): for each
aggregated `(product_id, qty)` in order, fail with
`InsufficientStockError(product_id, product.stock, qty)` if
`product.stock < qty`, else decrement the in-session stock. -/
def checkAndDeduct (ps : List Product) : List (Nat × Int) → Except SaleErr (List Product)
  | [] => Except.ok ps
  | (pid, qty) :: rest =>
    match lookupProduct ps pid with
    | none => Except.error (SaleErr.productNotFound pid)
    | some p =>
      if p.stock < qty then Except.error (SaleErr.insufficientStock pid p.stock qty)
      else checkAndDeduct (decrementStock ps pid qty) rest

deriving instance DecidableEq for Except

/-- Result of a sale-creation request: the committed database after the call
together with the outcome. On any raised error the transaction is rolled
back, so the committed state is the input state. -/
structure SaleOutcome where
  db : DB
  result : Except SaleErr SaleRow
deriving DecidableEq, Repr

/-- Embeds `app/services/sales.py: create_sale`. `freshInvoice` is the value the
(random, clock-dependent) `generate_next_invoice_number` would return for the
invoice pre-check fallback; `newSaleId` is the primary key the flush assigns
to the new sale. All error paths roll the transaction back, returning the
input committed state. -/
def create_sale (db : DB) (payload : SaleCreate) (tenant : Nat)
    (freshInvoice : String) (newSaleId : Nat) : SaleOutcome :=
  let invoice :=
    if db.sales.any (fun s => s.invoice_no == payload.invoice_no) then freshInvoice
    else payload.invoice_no
  let product_ids := payload.items.map (fun it => it.product_id)
  if product_ids.isEmpty then ⟨db, Except.error SaleErr.emptyCart⟩
  else
    let products := fetchProducts db tenant product_ids
    match product_ids.find? (fun pid => (lookupProduct products pid).isNone) with
    | some pid => ⟨db, Except.error (SaleErr.productNotFound pid)⟩
    | none =>
      match checkAndDeduct products (aggregateQuantities payload.items) with
      | Except.error e => ⟨db, Except.error e⟩
      | Except.ok products2 =>
        let sale : SaleRow :=
          { sid := newSaleId, tenant := tenant, invoice_no := invoice,
            payment_status := "pending", total := payload.total }
        let newItems := payload.items.map (fun it =>
          { tenant := tenant, sale_id := newSaleId, product_id := it.product_id,
            quantity := it.quantity, unit_price := it.unit_price : SaleItemRow })
        let newProducts := db.products.map (fun p => (lookupProduct products2 p.pid).getD p)
        ⟨{ products := newProducts, sales := db.sales ++ [sale],
           saleItems := db.saleItems ++ newItems }, Except.ok sale⟩

/-! ### The asynchronous sales service (`app/services/sales_service.py`)

The CRUD layer (`app/crud/base.py`) commits on every `create`: the embedding
applies each creation directly to the committed state. An exception rolls
back only uncommitted work, so committed rows survive. -/

/-- The committed database state seen by `SalesService` (sales and their
items; products are not touched by this path). -/
structure AsyncDB where
  sales : List SaleRow
  saleItems : List SaleItemRow
deriving DecidableEq, Repr

/-- Embeds `app/crud/base.py: CRUDBase.get` specialised to `Sale`: lookup by primary
key, filtering by tenant only when a (truthy) `tenant_id` is supplied. -/
def crud_sale_get (sales : List SaleRow) (saleId : Nat) (tenantFilter : Option Nat) : Option SaleRow :=
  sales.find? (fun s =>
    s.sid == saleId &&
      (match tenantFilter with
       | some t => s.tenant == t
       | none => true))

/-- Embeds `app/services/sales_service.py: SalesService.get_sale`. The method
receives a `tenant_id` argument but forwards only the id to
`crud_sale.get(db=self.db, id=sale_id)`, so no tenant filter is applied. -/
def SalesService_get_sale (db : AsyncDB) (saleId : Nat) (_tenantId : Nat) : Option SaleRow :=
  crud_sale_get db.sales saleId none

/-- Embeds `app/services/sales.py: get_sale` (synchronous): lookup filtered by
`Sale.id == sale_id` and `Sale.tenant_id == tenant_id`. -/
def sales_get_sale (db : DB) (saleId : Nat) (tenant : Nat) : Option SaleRow :=
  db.sales.find? (fun s => s.sid == saleId && s.tenant == tenant)

/-- Models `f"\x7brandom_digits:04d\x7d"`: decimal rendering left-padded with zeros
to at least four digits. -/
def pad4 (n : Nat) : String :=
  let s := toString n
  if s.length ≥ 4 then s else String.mk (List.replicate (4 - s.length) '0') ++ s.toList.asString

/-- Embeds `app/crud/crud_sale.py: CRUDSale.get_by_invoice_no`: lookup by invoice
number AND tenant (tenant-scoped). -/
def get_by_invoice_no (sales : List SaleRow) (invoice : String) (tenant : Nat) : Option SaleRow :=
  sales.find? (fun s => s.invoice_no == invoice && s.tenant == tenant)

/-- Embeds `app/services/sales_service.py: SalesService.get_next_invoice_number`.
The method is `async` and, on every loop iteration, `await`s
`crud_sale.get_by_invoice_no` (sales_service.py line 512) — but that CRUD
method is a plain synchronous function (crud_sale.py line 22). Under the
`AsyncSessionAdapter` the dependency layer supplies, the synchronous body
receives a coroutine from `adapter.execute` and raises `AttributeError` at
`.scalar_one_or_none()`; under a plain synchronous `Session`, the `await`
of the non-awaitable result raises `TypeError`. Either way the first
iteration of `for _ in range(20)` raises before any existence check
completes: the allocator can never return an invoice number, only raise. -/
def get_next_invoice_number (_db : AsyncDB) (_tenant : Nat) (_dateTag : String) :
    Except String String :=
  Except.error
    "TypeError/AttributeError: await of the synchronous crud_sale.get_by_invoice_no"

/-- Embeds `app/crud/base.py: CRUDBase.create` for `Sale`: insert and commit. -/
def crud_sale_create (db : AsyncDB) (s : SaleRow) : AsyncDB :=
  { db with sales := db.sales ++ [s] }

/-- Embeds `app/crud/base.py: CRUDBase.create` for `SaleItem`: insert and commit. -/
def crud_sale_item_create (db : AsyncDB) (it : SaleItemRow) : AsyncDB :=
  { db with saleItems := db.saleItems ++ [it] }

/-- Outcome of an asynchronous service call: committed database plus result;
`Except.error` stands for a raised `SalesServiceError`. -/
structure AsyncOutcome where
  db : AsyncDB
  result : Except String SaleRow
deriving DecidableEq, Repr

/-- Embeds `SalesService.create_sale_with_invoice` on the no-PDF path
(`pdf_content=None`): generate a fresh invoice number, overwrite
`sale_data.invoice_no` with it, then `crud_sale.create` (which commits). On
an exception the handler rolls back (undoing only uncommitted work) and
raises `SalesServiceError`. Because `get_next_invoice_number` always raises
(see its doc comment), that exception path is taken on every call, before
any row is created: nothing is ever persisted. `newSaleId` is the primary
key the create would assign. -/
def create_sale_with_invoice (db : AsyncDB) (saleData : SaleCreate) (tenant : Nat)
    (dateTag : String) (newSaleId : Nat) : AsyncOutcome :=
  match get_next_invoice_number db tenant dateTag with
  | Except.error e => ⟨db, Except.error e⟩
  | Except.ok invoice =>
    let sale : SaleRow :=
      { sid := newSaleId, tenant := tenant, invoice_no := invoice,
        payment_status := "pending", total := saleData.total }
    ⟨crud_sale_create db sale, Except.ok sale⟩

/-- The item-creation loop of `SalesService.create_sale_with_items`: one
`crud_sale_item.create` (insert + commit) per item. `itemFail k = true`
means the k-th create raises `SQLAlchemyError` (for example a constraint
violation); the CRUD layer then rolls back the (empty) uncommitted work and
re-raises, leaving all previously committed rows in place. Returns the
committed state and whether the loop completed. -/
def create_items_loop (saleId tenant : Nat) (itemFail : Nat → Bool) :
    AsyncDB → List SaleItemCreate → Nat → AsyncDB × Bool
  | db, [], _ => (db, true)
  | db, it :: rest, k =>
    if itemFail k then (db, false)
    else
      create_items_loop saleId tenant itemFail
        (crud_sale_item_create db
          { tenant := tenant, sale_id := saleId, product_id := it.product_id,
            quantity := it.quantity, unit_price := it.unit_price })
        rest (k + 1)

/-- Embeds `app/services/sales_service.py: SalesService.create_sale_with_items`:
create the sale via `create_sale_with_invoice`, then create each item; any
exception triggers `self.db.rollback()` (which cannot undo the commits
already performed) and raises `SalesServiceError`. -/
def SalesService_create_sale_with_items (db : AsyncDB) (saleData : SaleCreate)
    (items : List SaleItemCreate) (tenant : Nat) (dateTag : String)
    (newSaleId : Nat) (itemFail : Nat → Bool) : AsyncOutcome :=
  match create_sale_with_invoice db saleData tenant dateTag newSaleId with
  | ⟨db1, Except.error e⟩ => ⟨db1, Except.error e⟩
  | ⟨db1, Except.ok sale⟩ =>
    match create_items_loop sale.sid tenant itemFail db1 items 0 with
    | (db2, true) => ⟨db2, Except.ok sale⟩
    | (db2, false) => ⟨db2, Except.error "Failed to create sale with items"⟩

/-! ### The Razorpay payment bridge (`app/services/razorpay.py`)

External effects are inputs: `hasConnection` is whether
`get_client_for_store` finds an active `RazorpayConnection`; `gatewayOk`,
`gatewayOrderId` describe the outcome of the remote `client.order.create`;
`verifyOk` is the outcome of `client.utility.verify_payment_signature`;
`fetch` is the outcome of `client.payment.fetch` (`none` = the call raised,
which is logged and ignored); `now` is `datetime.utcnow()`. -/

/-- Payment order row (`app/models/razorpay_payment.py`), restricted to the
fields the engine reads or writes (`store_id` is consulted only to locate the
gateway client, which the embedding abstracts as `hasConnection`). -/
structure RazorpayPayment where
  tenant : Nat
  sale_id : Nat
  razorpay_order_id : String
  razorpay_payment_id : Option String
  razorpay_signature : Option String
  amount_paise : Int
  currency : String
  receipt : Option String
  status : String
  attempts : Option Int
  error_code : Option String
  error_description : Option String
  captured_at : Option Nat
deriving DecidableEq, Repr

/-- The committed state seen by the payment services: payment order rows and
the sale rows they settle. -/
structure PayDB where
  payments : List RazorpayPayment
  sales : List SaleRow
deriving DecidableEq, Repr

/-- The error hierarchy raised by the payment service:
`RazorpayIntegrationError`, its subclass `RazorpayValidationError`, and the
uncaught `pydantic.ValidationError` raised while constructing a
`RazorpayOrderCreate` argument (its `amount_paise` field carries `gt=0`). -/
inductive RpErr where
  | integration (msg : String) : RpErr
  | validation (msg : String) : RpErr
  | pydanticValidation (msg : String) : RpErr
deriving DecidableEq, Repr

/-- The fields `verify_and_update_payment` reads from the dict returned by
`client.payment.fetch`. -/
structure PaymentDetails where
  status : Option String
  attempts : Option Int
  error_code : Option String
  error_description : Option String
deriving DecidableEq, Repr

/-- The empty dict used when `client.payment.fetch` raised. -/
def emptyDetails : PaymentDetails :=
  { status := none, attempts := none, error_code := none, error_description := none }

/-- Python `int()` on an exact `Decimal` value: truncation toward zero.
For `q : ℚ` this is T-division of the numerator by the denominator. -/
def pyIntTrunc (q : ℚ) : Int :=
  Int.tdiv q.num q.den

/-- Embeds `RazorpayPaymentService._serialize_amount`:
`amount = int(Decimal(str(sale.total or 0)) * 100)`, failing with
`RazorpayIntegrationError` when `amount <= 0`. -/
def serialize_amount (sale : SaleRow) : Except RpErr Int :=
  let amount := pyIntTrunc (sale.total * 100)
  if amount ≤ 0 then
    Except.error (RpErr.integration "Sale total must be greater than zero for Razorpay payment")
  else Except.ok amount

/-- The client-facing payload returned by `create_order_for_sale`. -/
structure OrderResp where
  order_id : String
  amount : Int
  currency : String
  key_id : String
  receipt : Option String
deriving DecidableEq, Repr

/-- Outcome of `create_order_for_sale`: committed state plus result. On
success the source returns `(payment_record, response_payload, key_id)`
where `payment_record` is the unawaited `crud_razorpay_payment.create`
coroutine — not a row; the embedding models the usable part, the response
payload (the route discards the coroutine). -/
structure OrderOutcome where
  db : PayDB
  result : Except RpErr OrderResp
deriving DecidableEq, Repr

/-- Models `calculated_amount = amount_paise or self._serialize_amount(sale)`:
Python `or` falls back to the computed default exactly when the override is
`None` or `0`; any other integer (negative included) is used as-is. -/
def calculated_amount (sale : SaleRow) (amount_paise : Option Int) : Except RpErr Int :=
  match amount_paise with
  | some a => if a = 0 then serialize_amount sale else Except.ok a
  | none => serialize_amount sale

/-- Embeds `RazorpayPaymentService.create_order_for_sale`. The remote order
creation is modelled from the spec for the external gateway: on success it
returns an order dict echoing the submitted amount, currency `"INR"`, and
receipt. `crud_razorpay_payment.create` is an `async` method called WITHOUT
`await` (razorpay.py line 225) from this synchronous service: its coroutine
never runs and NO `RazorpayPayment` row is ever persisted — the committed
state is returned unchanged on every path. The coroutine's arguments ARE
evaluated eagerly, so the pydantic construction of `RazorpayOrderCreate`
(with `amount_paise = order["amount"]` and a `gt=0` field constraint)
raises an uncaught `pydantic.ValidationError` when the echoed amount is not
positive. -/
def create_order_for_sale (db : PayDB) (sale : SaleRow) (amount_paise : Option Int)
    (receipt : Option String) (hasConnection : Bool) (keyId : String)
    (gatewayOk : Bool) (gatewayOrderId : String) : OrderOutcome :=
  if !hasConnection then
    ⟨db, Except.error (RpErr.integration "Razorpay is not connected for this store")⟩
  else
    match calculated_amount sale amount_paise with
    | Except.error e => ⟨db, Except.error e⟩
    | Except.ok calculated =>
      if !gatewayOk then
        ⟨db, Except.error (RpErr.integration "Failed to create Razorpay order")⟩
      else
        let rcpt : Option String := some (receipt.getD sale.invoice_no)
        if calculated ≤ 0 then
          ⟨db, Except.error (RpErr.pydanticValidation
            "RazorpayOrderCreate amount_paise: input should be greater than 0")⟩
        else
          ⟨db, Except.ok { order_id := gatewayOrderId, amount := calculated,
                           currency := "INR", key_id := keyId, receipt := rcpt }⟩

/-- Models the pydantic payload `RazorpayPaymentUpdate`
(`app/schemas/razorpay_payment.py`) that `verify_and_update_payment`
constructs eagerly — the unawaited update coroutine carries it but never
applies it. -/
structure RazorpayPaymentUpdate where
  status : String
  razorpay_payment_id : String
  razorpay_signature : String
  attempts : Option Int
  error_code : Option String
  error_description : Option String
  captured_at : Option Nat
deriving DecidableEq, Repr

/-- Outcome of `verify_and_update_payment`: committed state plus result. On
the success path the source assigns `updated_payment =
crud_razorpay_payment.update(db_obj=payment, obj_in=update_payload)`
WITHOUT `await` and returns it: the value is the unawaited coroutine,
modelled as the pair of its eagerly evaluated arguments (the found row and
the update payload). The coroutine body never runs, so the committed state
is unchanged. -/
structure VerifyOutcome where
  db : PayDB
  result : Except RpErr (RazorpayPayment × RazorpayPaymentUpdate)
deriving DecidableEq, Repr

/-- Embeds `RazorpayPaymentService.verify_and_update_payment`: look up the
payment order by `razorpay_order_id` (a synchronous CRUD read, which runs);
reject a conflicting recorded `payment_id` (Python truthiness: a `None` or
empty recorded id is treated as absent); locate the gateway client; verify
the signature (failure raises `RazorpayValidationError` before any write);
best-effort fetch of payment details; eagerly build the update payload with
status (default `"captured"`), `payment_id`, `signature`, `attempts`, error
fields and `captured_at` (the current time when captured, else `None`) —
and then call the `async` `crud_razorpay_payment.update` WITHOUT `await`
(razorpay.py line 298): the update never executes, no row is written, and
the unawaited coroutine is what the function returns. Every path leaves the
committed state unchanged. -/
def verify_and_update_payment (db : PayDB) (order_id payment_id signature : String)
    (hasConnection : Bool) (verifyOk : Bool) (fetch : Option PaymentDetails)
    (now : Nat) : VerifyOutcome :=
  match db.payments.find? (fun p => p.razorpay_order_id == order_id) with
  | none => ⟨db, Except.error (RpErr.integration "No Razorpay payment record found for this order")⟩
  | some payment =>
    let recorded := payment.razorpay_payment_id.getD ""
    if recorded ≠ "" ∧ recorded ≠ payment_id then
      ⟨db, Except.error (RpErr.integration "Payment already recorded for this order")⟩
    else if !hasConnection then
      ⟨db, Except.error (RpErr.integration "Razorpay is not connected for this store")⟩
    else if !verifyOk then
      ⟨db, Except.error (RpErr.validation "Failed to verify Razorpay payment signature")⟩
    else
      let d := fetch.getD emptyDetails
      let status := d.status.getD "captured"
      let update_payload : RazorpayPaymentUpdate :=
        { status := status,
          razorpay_payment_id := payment_id,
          razorpay_signature := signature,
          attempts := d.attempts,
          error_code := d.error_code,
          error_description := d.error_description,
          captured_at := if status = "captured" then some now else none }
      ⟨db, Except.ok (payment, update_payload)⟩

/-! ### Sample rows used by concrete witnesses and counterexamples -/

/-- A freshly created payment order row for sale 10 of tenant 1. -/
def samplePayment : RazorpayPayment :=
  { tenant := 1, sale_id := 10, razorpay_order_id := "ord1",
    razorpay_payment_id := none, razorpay_signature := none,
    amount_paise := 15000, currency := "INR", receipt := some "I",
    status := "created", attempts := some 0, error_code := none,
    error_description := none, captured_at := none }

/-- A payment order row that already carries the recorded payment id `p1`
and a capture at time `t` — a state only an external writer can produce
(the service's own update is never awaited), kept to exercise the
duplicate-callback guard. -/
def sampleSettled (t : Nat) : RazorpayPayment :=
  { tenant := 1, sale_id := 10, razorpay_order_id := "ord1",
    razorpay_payment_id := some "p1", razorpay_signature := some "sig",
    amount_paise := 15000, currency := "INR", receipt := some "I",
    status := "captured", attempts := some 1, error_code := none,
    error_description := none, captured_at := some t }

/-- The sale row the sample payment order settles. -/
def sampleSale : SaleRow :=
  { sid := 10, tenant := 1, invoice_no := "I", payment_status := "pending", total := 150 }

/-- Payment details as fetched from the gateway for payment `p1`. -/
def sampleDetails : PaymentDetails :=
  { status := some "captured", attempts := some 1, error_code := none,
    error_description := none }

/-! ### Helper lemmas: product lookup -/

theorem lookupProduct_nil (pid : Nat) : lookupProduct [] pid = none := rfl

theorem lookupProduct_cons (p : Product) (ps : List Product) (pid : Nat) :
    lookupProduct (p :: ps) pid = if p.pid = pid then some p else lookupProduct ps pid := by
  simp only [lookupProduct, List.find?_cons]
  by_cases h : p.pid = pid
  · simp [h]
  · have hb : (p.pid == pid) = false := by simpa using h
    simp [hb, h]

theorem lookupProduct_pid {ps : List Product} {pid : Nat} {p : Product}
    (h : lookupProduct ps pid = some p) : p.pid = pid := by
  have := List.find?_some h
  simpa using this

theorem lookupProduct_mem {ps : List Product} {pid : Nat} {p : Product}
    (h : lookupProduct ps pid = some p) : p ∈ ps :=
  List.mem_of_find?_eq_some h

theorem lookupProduct_eq_none_of_not_mem {ps : List Product} {pid : Nat}
    (h : pid ∉ ps.map (fun p => p.pid)) : lookupProduct ps pid = none := by
  induction ps with
  | nil => rfl
  | cons p rest ih =>
    simp only [List.map_cons, List.mem_cons] at h
    push_neg at h
    rw [lookupProduct_cons, if_neg (Ne.symm h.1)]
    exact ih h.2

theorem lookupProduct_map (ps : List Product) (f : Product → Product)
    (hf : ∀ p, (f p).pid = p.pid) (pid : Nat) :
    lookupProduct (ps.map f) pid = (lookupProduct ps pid).map f := by
  induction ps with
  | nil => rfl
  | cons p rest ih =>
    rw [List.map_cons, lookupProduct_cons, lookupProduct_cons, hf]
    by_cases h : p.pid = pid
    · simp [h]
    · simp only [if_neg h]
      exact ih

theorem lookupProduct_decrementStock_ne (ps : List Product) {pid pid2 : Nat} (q : Int)
    (h : pid ≠ pid2) :
    lookupProduct (decrementStock ps pid2 q) pid = lookupProduct ps pid := by
  unfold decrementStock
  rw [lookupProduct_map ps _ (fun p => by by_cases hp : p.pid = pid2 <;> simp [hp]) pid]
  cases hl : lookupProduct ps pid with
  | none => rfl
  | some p =>
    have hp := lookupProduct_pid hl
    have hne : ¬ p.pid = pid2 := by rw [hp]; exact h
    simp [hne]

theorem lookupProduct_decrementStock_eq (ps : List Product) (pid : Nat) (q : Int) :
    lookupProduct (decrementStock ps pid q) pid =
      (lookupProduct ps pid).map (fun p => { p with stock := p.stock - q }) := by
  unfold decrementStock
  rw [lookupProduct_map ps _ (fun p => by by_cases hp : p.pid = pid <;> simp [hp]) pid]
  cases hl : lookupProduct ps pid with
  | none => rfl
  | some p =>
    have hp := lookupProduct_pid hl
    simp [hp]

theorem lookupProduct_filter {ps : List Product} (f : Product → Bool) (pid : Nat)
    (hnodup : (ps.map (fun p => p.pid)).Nodup) :
    lookupProduct (ps.filter f) pid =
      match lookupProduct ps pid with
      | some p => if f p then some p else none
      | none => none := by
  induction ps with
  | nil => rfl
  | cons p rest ih =>
    simp only [List.map_cons, List.nodup_cons] at hnodup
    by_cases hf : f p
    · rw [List.filter_cons_of_pos hf, lookupProduct_cons, lookupProduct_cons]
      by_cases h : p.pid = pid
      · simp [h, hf]
      · rw [if_neg h, if_neg h]
        exact ih hnodup.2
    · rw [List.filter_cons_of_neg (by simpa using hf), lookupProduct_cons]
      by_cases h : p.pid = pid
      · rw [if_pos h]
        subst h
        have hnone : lookupProduct (rest.filter f) p.pid = none := by
          apply lookupProduct_eq_none_of_not_mem
          intro hmem
          rcases List.mem_map.mp hmem with ⟨x, hx, hxpid⟩
          exact hnodup.1 (List.mem_map.mpr ⟨x, List.mem_of_mem_filter hx, hxpid⟩)
        rw [hnone]
        simp [hf]
      · rw [if_neg h]
        exact ih hnodup.2

/-! ### Helper lemmas: quantity aggregation -/

theorem sumQty_nil (pid : Nat) : sumQty [] pid = 0 := rfl

theorem sumQty_cons (it : SaleItemCreate) (items : List SaleItemCreate) (pid : Nat) :
    sumQty (it :: items) pid =
      if it.product_id = pid then it.quantity + sumQty items pid else sumQty items pid := by
  unfold sumQty
  by_cases h : it.product_id = pid
  · simp [List.filter_cons, h]
  · simp [List.filter_cons, h]

theorem aggLookup_nil (pid : Nat) : aggLookup [] pid = none := rfl

theorem aggLookup_cons (e : Nat × Int) (l : List (Nat × Int)) (pid : Nat) :
    aggLookup (e :: l) pid = if e.1 = pid then some e.2 else aggLookup l pid := by
  simp only [aggLookup, List.find?_cons]
  by_cases h : e.1 = pid
  · simp [h]
  · have hb : (e.1 == pid) = false := by simpa using h
    simp [hb, h]

theorem aggLookup_eq_none_of_not_mem {l : List (Nat × Int)} {pid : Nat}
    (h : pid ∉ l.map Prod.fst) : aggLookup l pid = none := by
  induction l with
  | nil => rfl
  | cons e rest ih =>
    simp only [List.map_cons, List.mem_cons] at h
    push_neg at h
    rw [aggLookup_cons, if_neg (Ne.symm h.1)]
    exact ih h.2

theorem aggLookup_isSome_of_mem {l : List (Nat × Int)} {e : Nat × Int} (h : e ∈ l) :
    (aggLookup l e.1).isSome := by
  induction l with
  | nil => cases h
  | cons a rest ih =>
    rw [aggLookup_cons]
    by_cases hh : a.1 = e.1
    · simp [hh]
    · rcases List.mem_cons.mp h with rfl | h2
      · exact absurd rfl hh
      · simp only [if_neg hh]
        exact ih h2

theorem mem_of_aggLookup_eq_some {l : List (Nat × Int)} {pid : Nat} {q : Int}
    (h : aggLookup l pid = some q) : (pid, q) ∈ l := by
  unfold aggLookup at h
  cases hf : l.find? (fun e => e.1 == pid) with
  | none => rw [hf] at h; cases h
  | some e =>
    rw [hf] at h
    obtain ⟨a, b⟩ := e
    have he1 : a = pid := by simpa using List.find?_some hf
    have he2 : b = q := by simpa using h
    subst he1
    subst he2
    exact List.mem_of_find?_eq_some hf

theorem keys_addQty (acc : List (Nat × Int)) (pid : Nat) (q : Int) :
    (addQty acc pid q).map Prod.fst =
      if pid ∈ acc.map Prod.fst then acc.map Prod.fst else acc.map Prod.fst ++ [pid] := by
  induction acc with
  | nil => simp [addQty]
  | cons e rest ih =>
    rcases e with ⟨p, x⟩
    by_cases h : p = pid
    · subst h
      simp [addQty]
    · simp only [addQty, if_neg h, List.map_cons, ih]
      by_cases hm : pid ∈ rest.map Prod.fst
      · simp [hm, Ne.symm h]
      · simp [hm, Ne.symm h]

theorem keys_addQty_nodup {acc : List (Nat × Int)} (h : (acc.map Prod.fst).Nodup)
    (pid : Nat) (q : Int) : ((addQty acc pid q).map Prod.fst).Nodup := by
  rw [keys_addQty]
  by_cases hm : pid ∈ acc.map Prod.fst
  · simpa [hm] using h
  · simp only [hm, if_false]
    rw [List.nodup_append]
    exact ⟨h, List.nodup_singleton pid, by simpa using hm⟩

theorem keys_aggregate_nodup (items : List SaleItemCreate) :
    ((aggregateQuantities items).map Prod.fst).Nodup := by
  unfold aggregateQuantities
  suffices h : ∀ acc : List (Nat × Int), (acc.map Prod.fst).Nodup →
      ((items.foldl (fun acc it => addQty acc it.product_id it.quantity) acc).map Prod.fst).Nodup by
    exact h [] (by simp)
  induction items with
  | nil => intro acc hacc; simpa using hacc
  | cons it rest ih =>
    intro acc hacc
    exact ih _ (keys_addQty_nodup hacc _ _)

theorem aggLookup_addQty_eq (acc : List (Nat × Int)) (pid : Nat) (q : Int) :
    aggLookup (addQty acc pid q) pid = some ((aggLookup acc pid).getD 0 + q) := by
  induction acc with
  | nil => simp [addQty, aggLookup_cons, aggLookup_nil]
  | cons e rest ih =>
    rcases e with ⟨p, x⟩
    by_cases h : p = pid
    · subst h
      simp [addQty, aggLookup_cons]
    · simp [addQty, h, aggLookup_cons, ih]

theorem aggLookup_addQty_ne (acc : List (Nat × Int)) {pid pid2 : Nat} (q : Int)
    (h : pid ≠ pid2) :
    aggLookup (addQty acc pid2 q) pid = aggLookup acc pid := by
  induction acc with
  | nil => simp [addQty, aggLookup_cons, Ne.symm h]
  | cons e rest ih =>
    rcases e with ⟨p, x⟩
    by_cases hp : p = pid2
    · subst hp
      simp [addQty, aggLookup_cons, Ne.symm h]
    · simp [addQty, hp, aggLookup_cons, ih]

theorem aggLookup_foldl (items : List SaleItemCreate) (pid : Nat) :
    ∀ acc : List (Nat × Int),
      aggLookup (items.foldl (fun acc it => addQty acc it.product_id it.quantity) acc) pid =
        match aggLookup acc pid with
        | some v => some (v + sumQty items pid)
        | none =>
          if pid ∈ items.map (fun it => it.product_id) then some (sumQty items pid) else none := by
  induction items with
  | nil =>
    intro acc
    cases h : aggLookup acc pid <;> simp [h, sumQty_nil]
  | cons it rest ih =>
    intro acc
    rw [List.foldl_cons, ih]
    by_cases hpid : it.product_id = pid
    · rw [hpid, aggLookup_addQty_eq]
      cases h : aggLookup acc pid with
      | some v =>
        simp [h, sumQty_cons, hpid, add_assoc]
      | none =>
        simp [h, sumQty_cons, hpid]
    · rw [aggLookup_addQty_ne acc it.quantity (fun hh => hpid hh.symm)]
      cases h : aggLookup acc pid with
      | some v =>
        simp [h, sumQty_cons, hpid]
      | none =>
        simp [h, sumQty_cons, hpid, Ne.symm hpid]

theorem aggLookup_aggregate (items : List SaleItemCreate) (pid : Nat) :
    aggLookup (aggregateQuantities items) pid =
      if pid ∈ items.map (fun it => it.product_id) then some (sumQty items pid) else none := by
  unfold aggregateQuantities
  rw [aggLookup_foldl]
  rfl

/-! ### Helper lemmas: the check-and-deduct loop -/

theorem checkAndDeduct_error_of_deficient :
    ∀ (L : List (Nat × Int)) (ps : List Product),
      (L.map Prod.fst).Nodup →
      (∀ e ∈ L, (lookupProduct ps e.1).isSome) →
      (∃ e ∈ L, ∃ p, lookupProduct ps e.1 = some p ∧ p.stock < e.2) →
      ∃ pid avail req p,
        checkAndDeduct ps L = Except.error (SaleErr.insufficientStock pid avail req) ∧
        (pid, req) ∈ L ∧ lookupProduct ps pid = some p ∧ p.stock = avail ∧ avail < req := by
  intro L
  induction L with
  | nil =>
    intro ps _ _ hdef
    simp at hdef
  | cons e0 rest ih =>
    intro ps hnd hpres hdef
    rcases e0 with ⟨pid0, q0⟩
    obtain ⟨p0, hp0⟩ : ∃ p0, lookupProduct ps pid0 = some p0 := by
      have := hpres (pid0, q0) (List.mem_cons_self _ _)
      simpa [Option.isSome_iff_exists] using this
    by_cases hlt : p0.stock < q0
    · refine ⟨pid0, p0.stock, q0, p0, ?_, List.mem_cons_self _ _, hp0, rfl, hlt⟩
      simp [checkAndDeduct, hp0, hlt]
    · have hstep : checkAndDeduct ps ((pid0, q0) :: rest) =
          checkAndDeduct (decrementStock ps pid0 q0) rest := by
        simp [checkAndDeduct, hp0, hlt]
      simp only [List.map_cons, List.nodup_cons] at hnd
      have hne : ∀ e2 ∈ rest, e2.1 ≠ pid0 := by
        intro e2 he2 hh
        exact hnd.1 (hh ▸ List.mem_map.mpr ⟨e2, he2, rfl⟩)
      rcases hdef with ⟨e, he, p, hp, hplt⟩
      have hemem : e ∈ rest := by
        rcases List.mem_cons.mp he with heq | h2
        · exfalso
          subst heq
          rw [hp0] at hp
          cases hp
          exact hlt hplt
        · exact h2
      have hpres2 : ∀ e2 ∈ rest, (lookupProduct (decrementStock ps pid0 q0) e2.1).isSome := by
        intro e2 he2
        rw [lookupProduct_decrementStock_ne ps q0 (hne e2 he2)]
        exact hpres e2 (List.mem_cons_of_mem _ he2)
      have hdef2 : ∃ e2 ∈ rest, ∃ p2,
          lookupProduct (decrementStock ps pid0 q0) e2.1 = some p2 ∧ p2.stock < e2.2 :=
        ⟨e, hemem, p, by
          rw [lookupProduct_decrementStock_ne ps q0 (hne e hemem)]
          exact hp, hplt⟩
      obtain ⟨pid, avail, req, p2, hres, hmem, hlk, hst, hltr⟩ :=
        ih (decrementStock ps pid0 q0) hnd.2 hpres2 hdef2
      refine ⟨pid, avail, req, p2, ?_, List.mem_cons_of_mem _ hmem, ?_, hst, hltr⟩
      · rw [hstep]
        exact hres
      · rw [← lookupProduct_decrementStock_ne ps q0 (hne (pid, req) hmem)]
        exact hlk

theorem checkAndDeduct_ok_lookup :
    ∀ (L : List (Nat × Int)) (ps ps2 : List Product),
      (L.map Prod.fst).Nodup →
      checkAndDeduct ps L = Except.ok ps2 →
      ∀ pid : Nat,
        (match aggLookup L pid with
         | some q => ∃ p, lookupProduct ps pid = some p ∧ q ≤ p.stock ∧
             lookupProduct ps2 pid = some { p with stock := p.stock - q }
         | none => lookupProduct ps2 pid = lookupProduct ps pid) := by
  intro L
  induction L with
  | nil =>
    intro ps ps2 _ hok pid
    have : ps = ps2 := by simpa [checkAndDeduct] using hok
    subst this
    simp [aggLookup_nil]
  | cons e0 rest ih =>
    intro ps ps2 hnd hok pid
    rcases e0 with ⟨pid0, q0⟩
    simp only [List.map_cons, List.nodup_cons] at hnd
    cases hp0 : lookupProduct ps pid0 with
    | none => simp [checkAndDeduct, hp0] at hok
    | some p0 =>
      by_cases hlt : p0.stock < q0
      · simp [checkAndDeduct, hp0, hlt] at hok
      · have hrec : checkAndDeduct (decrementStock ps pid0 q0) rest = Except.ok ps2 := by
          simpa [checkAndDeduct, hp0, hlt] using hok
        by_cases hpid : pid0 = pid
        · subst hpid
          rw [aggLookup_cons, if_pos rfl]
          have hnotin : aggLookup rest pid0 = none :=
            aggLookup_eq_none_of_not_mem hnd.1
          have := ih (decrementStock ps pid0 q0) ps2 hnd.2 hrec pid0
          rw [hnotin] at this
          simp only at this
          rw [this, lookupProduct_decrementStock_eq, hp0]
          exact ⟨p0, rfl, not_lt.mp hlt, rfl⟩
        · rw [aggLookup_cons, if_neg hpid]
          have := ih (decrementStock ps pid0 q0) ps2 hnd.2 hrec pid
          rw [lookupProduct_decrementStock_ne ps q0 (fun hh => hpid hh.symm)] at this
          exact this

/-! ### Helper lemmas: the tenant-scoped product fetch -/

theorem lookupProduct_fetch_some {db : DB} {tenant : Nat} {pids : List Nat}
    (hnodup : (db.products.map (fun p => p.pid)).Nodup) {pid : Nat} {p : Product}
    (hmem : pid ∈ pids) (hp : lookupProduct db.products pid = some p)
    (ht : p.tenant = tenant) :
    lookupProduct (fetchProducts db tenant pids) pid = some p := by
  unfold fetchProducts
  rw [lookupProduct_filter _ pid hnodup, hp]
  have hpid := lookupProduct_pid hp
  have hc : pids.contains p.pid = true := by
    rw [hpid]
    exact List.elem_eq_true_of_mem hmem
  simp only [hc, Bool.true_and, ht, beq_self_eq_true, if_true]

theorem lookupProduct_fetch_inv {db : DB} {tenant : Nat} {pids : List Nat}
    (hnodup : (db.products.map (fun p => p.pid)).Nodup) {pid : Nat} {p : Product}
    (h : lookupProduct (fetchProducts db tenant pids) pid = some p) :
    lookupProduct db.products pid = some p ∧ p.tenant = tenant := by
  unfold fetchProducts at h
  rw [lookupProduct_filter _ pid hnodup] at h
  cases hdb : lookupProduct db.products pid with
  | none => rw [hdb] at h; cases h
  | some p2 =>
    rw [hdb] at h
    simp only at h
    by_cases hf : pids.contains p2.pid && (p2.tenant == tenant)
    · rw [if_pos hf] at h
      cases h
      refine ⟨rfl, ?_⟩
      have := (Bool.and_eq_true _ _).mp hf
      simpa using this.2
    · rw [if_neg hf] at h
      cases h

theorem aggLookup_of_mem_nodup {l : List (Nat × Int)}
    (hnd : (l.map Prod.fst).Nodup) {e : Nat × Int} (h : e ∈ l) :
    aggLookup l e.1 = some e.2 := by
  induction l with
  | nil => cases h
  | cons a rest ih =>
    simp only [List.map_cons, List.nodup_cons] at hnd
    rcases List.mem_cons.mp h with rfl | h2
    · rw [aggLookup_cons, if_pos rfl]
    · rw [aggLookup_cons]
      by_cases hh : a.1 = e.1
      · exfalso
        exact hnd.1 (hh ▸ List.mem_map.mpr ⟨e, h2, rfl⟩)
      · rw [if_neg hh]
        exact ih hnd.2 h2

theorem mem_pids_of_mem_aggregate {items : List SaleItemCreate} {e : Nat × Int}
    (h : e ∈ aggregateQuantities items) :
    e.1 ∈ items.map (fun it => it.product_id) := by
  have hs := aggLookup_isSome_of_mem h
  rw [aggLookup_aggregate] at hs
  by_cases hm : e.1 ∈ items.map (fun it => it.product_id)
  · exact hm
  · rw [if_neg hm] at hs
    cases hs

/-! ### Claim theorems -/

/-- C1: for every cart in which some product of the tenant has available
stock strictly below the aggregated requested quantity (the sum of the
quantities for that product across all cart lines), and in which every cart
line references an existing product of the tenant, `create_sale` fails with
`InsufficientStockError` carrying that product id, its available stock, and
the aggregated requested quantity — and the committed database (in
particular every product's stock) is exactly the input database: no stock
decrement survives the failure. -/
theorem C1_insufficient_stock_error_and_rollback
    (db : DB) (payload : SaleCreate) (tenant : Nat) (freshInvoice : String) (newSaleId : Nat)
    (hnodup : (db.products.map (fun p => p.pid)).Nodup)
    (hpresent : ∀ it ∈ payload.items, ∃ p, lookupProduct db.products it.product_id = some p ∧
        p.tenant = tenant)
    (hdef : ∃ pid p, pid ∈ payload.items.map (fun it => it.product_id) ∧
        lookupProduct db.products pid = some p ∧ p.stock < sumQty payload.items pid) :
    ∃ pid p, pid ∈ payload.items.map (fun it => it.product_id) ∧
      lookupProduct db.products pid = some p ∧ p.stock < sumQty payload.items pid ∧
      create_sale db payload tenant freshInvoice newSaleId =
        ⟨db, Except.error (SaleErr.insufficientStock pid p.stock (sumQty payload.items pid))⟩ := by
  classical
  obtain ⟨pid0, p0, hmem0, hp0, hlt0⟩ := hdef
  set pids := payload.items.map (fun it => it.product_id) with hpids
  set products := fetchProducts db tenant pids with hprods
  set L := aggregateQuantities payload.items with hL
  -- every cart product is found in the locked fetch
  have hfetch : ∀ pid ∈ pids, ∃ p, lookupProduct products pid = some p ∧
      lookupProduct db.products pid = some p := by
    intro pid hpidmem
    rcases List.mem_map.mp hpidmem with ⟨it, hit, rfl⟩
    rcases hpresent it hit with ⟨p, hp, ht⟩
    exact ⟨p, lookupProduct_fetch_some hnodup hpidmem hp ht, hp⟩
  -- the cart is nonempty
  have hne : pids.isEmpty = false := by
    cases hcase : pids with
    | nil => rw [hcase] at hmem0; cases hmem0
    | cons a l => rfl
  -- the presence pre-check finds no missing product
  have hfind : pids.find? (fun pid => (lookupProduct products pid).isNone) = none := by
    rw [List.find?_eq_none]
    intro pid hpid
    rcases hfetch pid hpid with ⟨p, hp, _⟩
    simp [hp]
  -- the deduct loop fails on a deficient product
  have hdefL : ∃ e ∈ L, ∃ p, lookupProduct products e.1 = some p ∧ p.stock < e.2 := by
    refine ⟨(pid0, sumQty payload.items pid0), ?_, p0, ?_, hlt0⟩
    · apply mem_of_aggLookup_eq_some
      rw [hL, aggLookup_aggregate, if_pos hmem0]
    · rcases hfetch pid0 hmem0 with ⟨p, hp, hpdb⟩
      rw [hpdb] at hp0
      cases hp0
      exact hp
  have hpresL : ∀ e ∈ L, (lookupProduct products e.1).isSome := by
    intro e he
    rcases hfetch e.1 (by rw [hpids]; exact mem_pids_of_mem_aggregate (hL ▸ he)) with ⟨p, hp, _⟩
    simp [hp]
  obtain ⟨pid, avail, req, p, herr, hmemL, hlk, hst, hltr⟩ :=
    checkAndDeduct_error_of_deficient L products (hL ▸ keys_aggregate_nodup payload.items)
      hpresL hdefL
  -- identify the reported quantities
  have hpidmem : pid ∈ pids := by
    rw [hpids]
    exact mem_pids_of_mem_aggregate (e := (pid, req)) (hL ▸ hmemL)
  have hreq : req = sumQty payload.items pid := by
    have h1 : aggLookup L pid = some req :=
      aggLookup_of_mem_nodup (hL ▸ keys_aggregate_nodup payload.items) hmemL
    rw [hL, aggLookup_aggregate, if_pos (hpids ▸ hpidmem)] at h1
    exact (Option.some.injEq _ _ ▸ h1).symm
  have hdblk : lookupProduct db.products pid = some p := (lookupProduct_fetch_inv hnodup hlk).1
  refine ⟨pid, p, hpidmem, hdblk, ?_, ?_⟩
  · rw [← hreq, hst]
    exact hltr
  · unfold create_sale
    simp only [← hpids, hne, Bool.false_eq_true, if_false, ← hprods, ← hL, hfind, herr]
    rw [hst, hreq]

/-- Witness for C1: cart of one line (product 1, qty 3) against stock 2 for
tenant 1 fails with `InsufficientStockError(1, 2, 3)` and leaves the
database unchanged. -/
theorem C1_witness :
    ∃ pid p,
      pid ∈ ([{ product_id := 1, quantity := 3, unit_price := 10 }] :
          List SaleItemCreate).map (fun it => it.product_id) ∧
      lookupProduct [{ pid := 1, tenant := 1, stock := 2 }] pid = some p ∧
      p.stock < sumQty [{ product_id := 1, quantity := 3, unit_price := 10 }] pid ∧
      create_sale ⟨[{ pid := 1, tenant := 1, stock := 2 }], [], []⟩
          { invoice_no := "INV-1",
            items := [{ product_id := 1, quantity := 3, unit_price := 10 }], total := 30 }
          1 "F" 42 =
        ⟨⟨[{ pid := 1, tenant := 1, stock := 2 }], [], []⟩,
          Except.error (SaleErr.insufficientStock pid p.stock
            (sumQty [{ product_id := 1, quantity := 3, unit_price := 10 }] pid))⟩ :=
  C1_insufficient_stock_error_and_rollback
    ⟨[{ pid := 1, tenant := 1, stock := 2 }], [], []⟩
    { invoice_no := "INV-1",
      items := [{ product_id := 1, quantity := 3, unit_price := 10 }], total := 30 }
    1 "F" 42
    (by decide)
    (by
      intro it hit
      rw [List.mem_singleton] at hit
      subst hit
      exact ⟨{ pid := 1, tenant := 1, stock := 2 }, rfl, rfl⟩)
    ⟨1, { pid := 1, tenant := 1, stock := 2 }, by decide, rfl, by decide⟩

/-- C2: for every successful sale creation, each referenced product's stock
after the operation equals its stock before minus the exact sum of the
quantities for that product across all cart lines, and the resulting stock
is never negative. -/
theorem C2_success_stock_decremented
    (db db2 : DB) (payload : SaleCreate) (tenant : Nat) (freshInvoice : String)
    (newSaleId : Nat) (sale : SaleRow)
    (hnodup : (db.products.map (fun p => p.pid)).Nodup)
    (hok : create_sale db payload tenant freshInvoice newSaleId = ⟨db2, Except.ok sale⟩) :
    ∀ pid ∈ payload.items.map (fun it => it.product_id),
      ∃ p, lookupProduct db.products pid = some p ∧
        lookupProduct db2.products pid =
          some { p with stock := p.stock - sumQty payload.items pid } ∧
        sumQty payload.items pid ≤ p.stock ∧
        0 ≤ p.stock - sumQty payload.items pid := by
  classical
  set pids := payload.items.map (fun it => it.product_id) with hpids
  set products := fetchProducts db tenant pids with hprods
  set L := aggregateQuantities payload.items with hL
  unfold create_sale at hok
  simp only [] at hok
  rw [← hprods, ← hL] at hok
  by_cases hemp : pids.isEmpty
  · rw [if_pos hemp] at hok
    cases hok
  · rw [if_neg hemp] at hok
    cases hfind : pids.find? (fun pid => (lookupProduct products pid).isNone) with
    | some pid => rw [hfind] at hok; cases hok
    | none =>
      rw [hfind] at hok
      cases hcd : checkAndDeduct products L with
      | error e => rw [hcd] at hok; cases hok
      | ok products2 =>
        rw [hcd] at hok
        injection hok with hdb hres
        have hdb2 : db2.products =
            db.products.map (fun p => (lookupProduct products2 p.pid).getD p) := by
          rw [← hdb]
        intro pid hpid
        have hpres : (lookupProduct products pid).isSome := by
          have := List.find?_eq_none.mp hfind pid hpid
          simpa [Option.isNone_iff_eq_none, Option.isSome_iff_ne_none] using this
        obtain ⟨pf, hpf⟩ := Option.isSome_iff_exists.mp hpres
        obtain ⟨hpdb, _⟩ := lookupProduct_fetch_inv hnodup (hprods ▸ hpf)
        have hcdlk := checkAndDeduct_ok_lookup L products products2
          (hL ▸ keys_aggregate_nodup payload.items) hcd pid
        have haggL : aggLookup L pid = some (sumQty payload.items pid) := by
          rw [hL, aggLookup_aggregate, if_pos (hpids ▸ hpid)]
        rw [haggL] at hcdlk
        obtain ⟨p, hp, hle, hp2⟩ := hcdlk
        rw [hpf] at hp
        cases hp
        refine ⟨pf, hpdb, ?_, hle, by omega⟩
        rw [hdb2]
        rw [lookupProduct_map db.products _ ?hpidpres pid, hpdb]
        case hpidpres =>
          intro p
          cases hlp : lookupProduct products2 p.pid with
          | none => simp [hlp]
          | some px =>
            simp only [hlp, Option.getD_some]
            exact lookupProduct_pid hlp
        have hmapped : (some pf).map (fun p => (lookupProduct products2 p.pid).getD p)
            = some ((lookupProduct products2 pf.pid).getD pf) := rfl
        rw [hmapped]
        have hpfpid : pf.pid = pid := lookupProduct_pid hpdb
        rw [hpfpid, hp2, hpfpid]
        rfl

/-- Witness for C2 (the spec scenario): cart of one line (product A, qty 3,
unit price 10.00) against stock 5 succeeds; product A's stock becomes 2
(that is, 5 minus the summed quantity 3, and not negative). -/
theorem C2_witness :
    create_sale ⟨[{ pid := 1, tenant := 1, stock := 5 }], [], []⟩
        { invoice_no := "INV-1",
          items := [{ product_id := 1, quantity := 3, unit_price := 10 }], total := 30 }
        1 "F" 42 =
      ⟨⟨[{ pid := 1, tenant := 1, stock := 2 }],
        [{ sid := 42, tenant := 1, invoice_no := "INV-1", payment_status := "pending",
           total := 30 }],
        [{ tenant := 1, sale_id := 42, product_id := 1, quantity := 3, unit_price := 10 }]⟩,
        Except.ok ({ sid := 42, tenant := 1, invoice_no := "INV-1",
                     payment_status := "pending", total := 30 })⟩ ∧
    (∃ p, lookupProduct [{ pid := 1, tenant := 1, stock := 5 }] 1 = some p ∧
      lookupProduct
          (DB.products ⟨[{ pid := 1, tenant := 1, stock := 2 }],
            [{ sid := 42, tenant := 1, invoice_no := "INV-1", payment_status := "pending",
               total := 30 }],
            [{ tenant := 1, sale_id := 42, product_id := 1, quantity := 3,
               unit_price := 10 }]⟩) 1 =
        some { p with
          stock := p.stock -
            sumQty [{ product_id := 1, quantity := 3, unit_price := 10 }] 1 } ∧
      sumQty [{ product_id := 1, quantity := 3, unit_price := 10 }] 1 ≤ p.stock ∧
      0 ≤ p.stock - sumQty [{ product_id := 1, quantity := 3, unit_price := 10 }] 1) :=
  ⟨rfl,
    C2_success_stock_decremented
      ⟨[{ pid := 1, tenant := 1, stock := 5 }], [], []⟩
      ⟨[{ pid := 1, tenant := 1, stock := 2 }],
        [{ sid := 42, tenant := 1, invoice_no := "INV-1", payment_status := "pending",
           total := 30 }],
        [{ tenant := 1, sale_id := 42, product_id := 1, quantity := 3, unit_price := 10 }]⟩
      { invoice_no := "INV-1",
        items := [{ product_id := 1, quantity := 3, unit_price := 10 }], total := 30 }
      1 "F" 42
      ({ sid := 42, tenant := 1, invoice_no := "INV-1", payment_status := "pending",
         total := 30 })
      (by decide) rfl 1 (by decide)⟩

/-- C3: a Sale and its SaleItems are created together or not at all. On the
synchronous path (`services/sales.py: create_sale`, single commit) every
call either fails with the committed database exactly unchanged — no Sale,
no SaleItems, no stock decrement — or succeeds with the Sale row and all of
its SaleItem rows appended together in the one committed state that also
carries the stock decrements. On the `SalesService.create_sale_with_items`
path, every call raises before persisting anything (the invoice allocator's
first `await` of the synchronous `crud_sale.get_by_invoice_no` raises), so
no partial state — in particular no Sale without items — can ever be
committed there either. -/
theorem C3_sale_and_items_all_or_nothing :
    (∀ (db : DB) (payload : SaleCreate) (tenant : Nat) (freshInvoice : String)
        (newSaleId : Nat),
      (∃ e, create_sale db payload tenant freshInvoice newSaleId =
        ⟨db, Except.error e⟩) ∨
      (∃ sale, (create_sale db payload tenant freshInvoice newSaleId).result =
          Except.ok sale ∧
        (create_sale db payload tenant freshInvoice newSaleId).db.sales =
          db.sales ++ [sale] ∧
        (create_sale db payload tenant freshInvoice newSaleId).db.saleItems =
          db.saleItems ++ payload.items.map (fun it =>
            { tenant := tenant, sale_id := sale.sid, product_id := it.product_id,
              quantity := it.quantity, unit_price := it.unit_price }))) ∧
    (∀ (db : AsyncDB) (saleData : SaleCreate) (items : List SaleItemCreate)
        (tenant : Nat) (dateTag : String) (newSaleId : Nat) (itemFail : Nat → Bool),
      ∃ e, SalesService_create_sale_with_items db saleData items tenant dateTag
          newSaleId itemFail = ⟨db, Except.error e⟩) := by
  constructor
  · intro db payload tenant freshInvoice newSaleId
    by_cases hemp : (payload.items.map (fun it => it.product_id)).isEmpty
    · exact Or.inl ⟨SaleErr.emptyCart, by simp [create_sale, hemp]⟩
    · cases hfind : (payload.items.map (fun it => it.product_id)).find?
          (fun pid => (lookupProduct (fetchProducts db tenant
            (payload.items.map (fun it => it.product_id))) pid).isNone) with
      | some pid =>
        exact Or.inl ⟨SaleErr.productNotFound pid, by simp [create_sale, hemp, hfind]⟩
      | none =>
        cases hcd : checkAndDeduct
            (fetchProducts db tenant (payload.items.map (fun it => it.product_id)))
            (aggregateQuantities payload.items) with
        | error e =>
          exact Or.inl ⟨e, by simp [create_sale, hemp, hfind, hcd]⟩
        | ok products2 =>
          refine Or.inr
            ⟨{ sid := newSaleId, tenant := tenant,
               invoice_no := if db.sales.any (fun s => s.invoice_no == payload.invoice_no) then freshInvoice else payload.invoice_no,
               payment_status := "pending", total := payload.total }, ?_, ?_, ?_⟩ <;>
            simp [create_sale, hemp, hfind, hcd]
  · intro db saleData items tenant dateTag newSaleId itemFail
    exact ⟨"TypeError/AttributeError: await of the synchronous crud_sale.get_by_invoice_no",
      rfl⟩

/-- C4 (exhibit of the defect): the cited allocator
(`SalesService.get_next_invoice_number`) raises on its very first loop
iteration — the `await` of the synchronous `crud_sale.get_by_invoice_no`
fails under every session wiring — so it never returns any invoice number,
let alone a uniqueness-checked one; and the existence check it would have
performed is tenant-scoped, blind to a cross-tenant duplicate (here a
stored tenant-1 sale already carrying `01/01/25-0001` is invisible to a
tenant-2 check). -/
theorem C4_allocator_never_returns_a_number :
    (∀ (db : AsyncDB) (tenant : Nat) (dateTag : String),
      ∃ msg, get_next_invoice_number db tenant dateTag = Except.error msg) ∧
    get_by_invoice_no
        [{ sid := 1, tenant := 1, invoice_no := "01/01/25-0001",
           payment_status := "paid", total := 10 }]
        "01/01/25-0001" 2 = none :=
  ⟨fun _ _ _ =>
    ⟨"TypeError/AttributeError: await of the synchronous crud_sale.get_by_invoice_no",
      rfl⟩, rfl⟩

/-- C9 (exhibit of the defect): the synchronous `get_sale` is correctly
tenant-scoped (a sale of tenant 1 queried for tenant 2 yields `None`), but
`SalesService.get_sale` — despite its docstring promising tenant filtering —
never forwards its `tenant_id` to `crud_sale.get`, and returns tenant 1's
sale to a caller supplying `tenant_id = 2` instead of `None`. -/
theorem C9_cross_tenant_read_not_scoped :
    sales_get_sale
        ⟨[],
         [{ sid := 1, tenant := 1, invoice_no := "I", payment_status := "paid", total := 10 }],
         []⟩ 1 2 = none ∧
    SalesService_get_sale
        ⟨[{ sid := 1, tenant := 1, invoice_no := "I", payment_status := "paid", total := 10 }],
         []⟩ 1 2 =
      some { sid := 1, tenant := 1, invoice_no := "I", payment_status := "paid", total := 10 } ∧
    (1 : Nat) ≠ 2 :=
  ⟨rfl, rfl, by decide⟩

/-! ### Helper lemmas: minor-unit serialization -/

theorem pyIntTrunc_den_one {q : ℚ} (h : q.den = 1) : pyIntTrunc q = q.num := by
  unfold pyIntTrunc
  rw [h]
  exact_mod_cast Int.tdiv_one q.num

theorem round_den_one {q : ℚ} (h : q.den = 1) : round q = q.num := by
  have hq : (q.num : ℚ) = q := Rat.coe_int_num_of_den_eq_one h
  conv_lhs => rw [← hq]
  rw [round_intCast]

theorem pyIntTrunc_eq_round_den_one {q : ℚ} (h : q.den = 1) : pyIntTrunc q = round q := by
  rw [pyIntTrunc_den_one h, round_den_one h]

theorem serialize_amount_den_one {sale : SaleRow} (h : (sale.total * 100).den = 1) :
    serialize_amount sale =
      if round (sale.total * 100) ≤ 0 then
        Except.error (RpErr.integration
          "Sale total must be greater than zero for Razorpay payment")
      else Except.ok (round (sale.total * 100)) := by
  unfold serialize_amount
  rw [pyIntTrunc_eq_round_den_one h]

/-- C7: with no amount override, the gateway charge amount — the amount the
service submits to the remote gateway and returns to the client — equals
`round(Sale.total * 100)` minor units, and order creation fails with an
`IntegrationError` whenever that computed amount is ≤ 0. (No `PaymentOrder`
row is persisted on any path: the create coroutine is never awaited.) The
hypothesis `(sale.total * 100).den = 1` states that `total` is representable
in the `Numeric(10, 2)` column, i.e. has at most two decimal places. -/
theorem C7_default_amount_is_round_total_times_100
    (db : PayDB) (sale : SaleRow) (receipt : Option String) (keyId : String)
    (gatewayOk : Bool) (gatewayOrderId : String)
    (hden : (sale.total * 100).den = 1) :
    (0 < round (sale.total * 100) → gatewayOk = true →
      create_order_for_sale db sale none receipt true keyId gatewayOk gatewayOrderId =
        ⟨db, Except.ok { order_id := gatewayOrderId, amount := round (sale.total * 100),
                         currency := "INR", key_id := keyId,
                         receipt := some (receipt.getD sale.invoice_no) }⟩) ∧
    (round (sale.total * 100) ≤ 0 →
      create_order_for_sale db sale none receipt true keyId gatewayOk gatewayOrderId =
        ⟨db, Except.error (RpErr.integration
          "Sale total must be greater than zero for Razorpay payment")⟩) := by
  constructor
  · intro hpos hgw
    subst hgw
    unfold create_order_for_sale calculated_amount
    rw [serialize_amount_den_one hden, if_neg (not_le.mpr hpos)]
    simp only [Bool.not_true, Bool.false_eq_true, if_false]
    rw [if_neg (not_le.mpr hpos)]
  · intro hle
    unfold create_order_for_sale calculated_amount
    rw [serialize_amount_den_one hden, if_pos hle]
    rfl

/-- C5: when the payment order is found and carries no conflicting recorded
payment id, a callback whose signature fails cryptographic verification
(`verifyOk = false`) makes `verify_and_update_payment` raise
`RazorpayValidationError`, and the committed state — every `PaymentOrder`
field and every Sale row, in particular the owning Sale's `payment_status` —
is exactly the input state. -/
theorem C5_invalid_signature_validation_error_no_state_update
    (db : PayDB) (order_id payment_id signature : String)
    (fetch : Option PaymentDetails) (now : Nat) (payment : RazorpayPayment)
    (hfound : db.payments.find? (fun p => p.razorpay_order_id == order_id) = some payment)
    (hnoconf : ¬(payment.razorpay_payment_id.getD "" ≠ "" ∧
        payment.razorpay_payment_id.getD "" ≠ payment_id)) :
    verify_and_update_payment db order_id payment_id signature true false fetch now =
      ⟨db, Except.error (RpErr.validation "Failed to verify Razorpay payment signature")⟩ := by
  unfold verify_and_update_payment
  rw [hfound]
  simp [hnoconf]

/-- Witness for C5: a tampered-signature callback for order `ord1` against
the sample store is rejected with a `ValidationError` and the store is
returned unchanged. -/
theorem C5_witness :
    verify_and_update_payment ⟨[samplePayment], [sampleSale]⟩ "ord1" "p1" "bad-sig"
        true false (some sampleDetails) 5 =
      ⟨⟨[samplePayment], [sampleSale]⟩,
        Except.error (RpErr.validation "Failed to verify Razorpay payment signature")⟩ :=
  C5_invalid_signature_validation_error_no_state_update
    ⟨[samplePayment], [sampleSale]⟩ "ord1" "p1" "bad-sig" (some sampleDetails) 5
    samplePayment rfl (by decide)

/-- C6 (exhibit of the defect): `verify_and_update_payment` NEVER changes
the committed state — on every input, error or success, the database after
the call is the input database, because the `async`
`crud_razorpay_payment.update` is invoked without `await` and its coroutine
never runs. The conflicting-payment-id guard itself works (second
conjunct: a replay of order `ord1` with a different payment id `p2` against
an externally recorded row fails with `IntegrationError` and no state
change), but a valid first callback (third conjunct) also writes nothing:
it returns the found row unchanged paired with the update payload trapped
in the unawaited coroutine, so no payment id is ever recorded and no
settled state ever exists for re-invocation to preserve. -/
theorem C6_verification_never_updates_state :
    (∀ (db : PayDB) (order_id payment_id signature : String)
        (hasConnection verifyOk : Bool) (fetch : Option PaymentDetails) (now : Nat),
      (verify_and_update_payment db order_id payment_id signature hasConnection
        verifyOk fetch now).db = db) ∧
    verify_and_update_payment ⟨[sampleSettled 1], [sampleSale]⟩ "ord1" "p2" "sig"
        true true (some sampleDetails) 2 =
      ⟨⟨[sampleSettled 1], [sampleSale]⟩,
        Except.error (RpErr.integration "Payment already recorded for this order")⟩ ∧
    verify_and_update_payment ⟨[samplePayment], [sampleSale]⟩ "ord1" "p1" "sig"
        true true (some sampleDetails) 5 =
      ⟨⟨[samplePayment], [sampleSale]⟩,
        Except.ok (samplePayment,
          { status := "captured", razorpay_payment_id := "p1",
            razorpay_signature := "sig", attempts := some 1, error_code := none,
            error_description := none, captured_at := some 5 })⟩ := by
  refine ⟨?_, rfl, rfl⟩
  intro db order_id payment_id signature hasConnection verifyOk fetch now
  unfold verify_and_update_payment
  cases hfind : db.payments.find? (fun p => p.razorpay_order_id == order_id) with
  | none => rfl
  | some payment =>
    by_cases hconf : payment.razorpay_payment_id.getD "" ≠ "" ∧
        payment.razorpay_payment_id.getD "" ≠ payment_id
    · simp [hconf]
    · cases hasConnection <;> cases verifyOk <;> simp [hconf]

/-- Witness for C7: a sale with total 150.00 and no override yields a
gateway charge of 15000 minor units in the client payload, and a sale with
total 0 is rejected with an `IntegrationError`. -/
theorem C7_witness :
    create_order_for_sale ⟨[], []⟩ sampleSale none none true "key" true "ord1" =
      ⟨⟨[], []⟩,
        Except.ok { order_id := "ord1", amount := 15000, currency := "INR",
                    key_id := "key", receipt := some "I" }⟩ ∧
    create_order_for_sale ⟨[], []⟩
        { sid := 11, tenant := 1, invoice_no := "J", payment_status := "pending", total := 0 }
        none none true "key" true "ord2" =
      ⟨⟨[], []⟩, Except.error (RpErr.integration
        "Sale total must be greater than zero for Razorpay payment")⟩ := by
  constructor
  · have h := (C7_default_amount_is_round_total_times_100 ⟨[], []⟩ sampleSale none "key"
      true "ord1" (by norm_num [sampleSale])).1 (by norm_num [sampleSale]) rfl
    rw [h]
    norm_num [sampleSale]
  · exact (C7_default_amount_is_round_total_times_100 ⟨[], []⟩
      { sid := 11, tenant := 1, invoice_no := "J", payment_status := "pending", total := 0 }
      none "key" true "ord2" (by norm_num)).2 (by norm_num)

/-- C8: creating a gateway order never mutates the Sale rows — for every
input state and every outcome (missing connection, non-positive computed
amount, gateway failure, or success), the sale rows of the resulting
committed state are exactly the input sale rows, and the only possible new
state is one appended `PaymentOrder` record. -/
theorem C8_create_order_never_mutates_sale
    (db : PayDB) (sale : SaleRow) (amount_paise : Option Int) (receipt : Option String)
    (hasConnection : Bool) (keyId : String) (gatewayOk : Bool) (gatewayOrderId : String) :
    (create_order_for_sale db sale amount_paise receipt hasConnection keyId gatewayOk
        gatewayOrderId).db.sales = db.sales ∧
    ((create_order_for_sale db sale amount_paise receipt hasConnection keyId gatewayOk
        gatewayOrderId).db.payments = db.payments ∨
      ∃ record, (create_order_for_sale db sale amount_paise receipt hasConnection keyId
        gatewayOk gatewayOrderId).db.payments = db.payments ++ [record]) := by
  unfold create_order_for_sale
  cases hasConnection with
  | false => exact ⟨rfl, Or.inl rfl⟩
  | true =>
    simp only [Bool.not_true, Bool.false_eq_true, if_false]
    cases hcalc : calculated_amount sale amount_paise with
    | error e => exact ⟨rfl, Or.inl rfl⟩
    | ok c =>
      cases gatewayOk with
      | false => exact ⟨rfl, Or.inl rfl⟩
      | true =>
        by_cases hle : c ≤ 0
        · simp only [if_pos hle]
          exact ⟨rfl, Or.inl rfl⟩
        · simp only [if_neg hle]
          exact ⟨rfl, Or.inl rfl⟩

/-- C10 counterexample: a negative override is NOT used as the charge
amount without a positivity check — inside `create_order_for_sale` the
eager pydantic construction of `RazorpayOrderCreate` enforces
`amount_paise > 0` on the gateway-echoed amount, so an override of -5 paise
makes the call raise a `pydantic.ValidationError` instead of charging -5. -/
theorem C10_counterexample_negative_override_rejected :
    create_order_for_sale ⟨[], []⟩ sampleSale (some (-5)) none true "key" true "ord1" =
      ⟨⟨[], []⟩, Except.error (RpErr.pydanticValidation
        "RazorpayOrderCreate amount_paise: input should be greater than 0")⟩ := rfl

/-- C10 (amended): the `_serialize_amount` positive-amount guard applies
only to the computed default — a nonzero override (negative included)
bypasses it and is submitted to the gateway as the charge amount (first
conjunct: with a nonzero override the call reaches the remote order
creation and fails with the gateway error, not the amount guard), a
positive override is used as the charge amount (second conjunct), and an
override of 0 is treated as absent, the call behaving exactly as with no
override (fourth conjunct); but the eagerly evaluated pydantic validation
of `RazorpayOrderCreate` (`amount_paise` with `gt=0`) then rejects a
non-positive echoed amount, so a negative override fails with a
`pydantic.ValidationError` (third conjunct) rather than being charged. -/
theorem C10_amended_override_semantics
    (db : PayDB) (sale : SaleRow) (receipt : Option String) (keyId : String)
    (gatewayOrderId : String) (a : Int) (hasConnection : Bool) (gatewayOk : Bool) :
    (a ≠ 0 →
      create_order_for_sale db sale (some a) receipt true keyId false gatewayOrderId =
        ⟨db, Except.error (RpErr.integration "Failed to create Razorpay order")⟩) ∧
    (0 < a →
      create_order_for_sale db sale (some a) receipt true keyId true gatewayOrderId =
        ⟨db, Except.ok { order_id := gatewayOrderId, amount := a, currency := "INR",
                         key_id := keyId,
                         receipt := some (receipt.getD sale.invoice_no) }⟩) ∧
    (a ≠ 0 → a ≤ 0 →
      create_order_for_sale db sale (some a) receipt true keyId true gatewayOrderId =
        ⟨db, Except.error (RpErr.pydanticValidation
          "RazorpayOrderCreate amount_paise: input should be greater than 0")⟩) ∧
    create_order_for_sale db sale (some 0) receipt hasConnection keyId gatewayOk
        gatewayOrderId =
      create_order_for_sale db sale none receipt hasConnection keyId gatewayOk
        gatewayOrderId := by
  refine ⟨?_, ?_, ?_, rfl⟩
  · intro ha
    unfold create_order_for_sale calculated_amount
    simp [ha]
  · intro hpos
    unfold create_order_for_sale calculated_amount
    simp [hpos.ne', not_le.mpr hpos]
  · intro ha hle
    unfold create_order_for_sale calculated_amount
    simp [ha, hle]

/-- Witness for the amended C10: with override -5 the gateway call is
reached (gateway failure surfaces, not the amount guard) and, when the
gateway echoes, pydantic rejects the non-positive amount; a positive
override of 7 is charged as-is; an override of 0 behaves as no override. -/
theorem C10_witness :
    create_order_for_sale ⟨[], []⟩ sampleSale (some (-5)) none true "key" false "o1" =
      ⟨⟨[], []⟩, Except.error (RpErr.integration "Failed to create Razorpay order")⟩ ∧
    create_order_for_sale ⟨[], []⟩ sampleSale (some 7) none true "key" true "o2" =
      ⟨⟨[], []⟩,
        Except.ok ({ order_id := "o2", amount := 7, currency := "INR",
                     key_id := "key", receipt := some "I" })⟩ ∧
    create_order_for_sale ⟨[], []⟩ sampleSale (some (-5)) none true "key" true "o3" =
      ⟨⟨[], []⟩, Except.error (RpErr.pydanticValidation
        "RazorpayOrderCreate amount_paise: input should be greater than 0")⟩ ∧
    create_order_for_sale ⟨[], []⟩ sampleSale (some 0) none true "key" true "o4" =
      create_order_for_sale ⟨[], []⟩ sampleSale none none true "key" true "o4" :=
  ⟨(C10_amended_override_semantics ⟨[], []⟩ sampleSale none "key" "o1" (-5) true
      true).1 (by decide),
   (C10_amended_override_semantics ⟨[], []⟩ sampleSale none "key" "o2" 7 true
      true).2.1 (by decide),
   (C10_amended_override_semantics ⟨[], []⟩ sampleSale none "key" "o3" (-5) true
      true).2.2.1 (by decide) (by decide),
   (C10_amended_override_semantics ⟨[], []⟩ sampleSale none "key" "o4" 7 true
      true).2.2.2⟩
